import Mathlib

/-!
# Shallow embedding of `src/src/decoder.c` (`jp2_decode`)

`jp2_decode` is the only entry point of the decoder.  It is embedded as a pure
function that returns the integer status together with the ordered list of
every externally visible action of the call (memory loads of the format check,
calls into the decoding engine, calls of the host functions).

Modelling conventions
* `data : Nat → Nat` is the linear memory seen from the pointer `data`
  (`data i` is the byte at `data + i`, taken modulo 256); the input buffer is its
  first `data_size` bytes.  The C code never compares an index with
  `data_size`, so a load is an access of this memory whatever `data_size` is.
* `int32data[k]` is the 32-bit little-endian word at bytes `4k .. 4k+3`
  (the target of the build is WebAssembly, which is little-endian).
* The decoding engine (OpenJPEG) is external.  Its answers are collected in an
  `Engine` record, over which every theorem quantifies.
* Pointers are `Option Nat` (`none` is `NULL`).
-/

/-! ## Constants of `decoder.c` -/

def JP2_RFC3745_MAGIC_0 : Nat := 0x0C000000
def JP2_RFC3745_MAGIC_1 : Nat := 0x2020506A
def JP2_RFC3745_MAGIC_2 : Nat := 0x0A870A0D
def JP2_MAGIC : Nat := 0x0A870A0D
def J2K_CODESTREAM_MAGIC : Nat := 0x51FF4FFF

/-! ## Data model -/

/-- Codec selector handed to `opj_create_decompress`. -/
inductive OPJ_CODEC_FORMAT where
  | OPJ_CODEC_J2K
  | OPJ_CODEC_JP2
  deriving DecidableEq

/-- The decode parameters.  `jp2_decode` only ever touches `flags`; all the
remaining fields of the engine's record are kept together in `other_fields`. -/
structure opj_dparameters_t where
  flags : Nat
  other_fields : List Int
  deriving DecidableEq

/-- One component of a decoded image: `prec` and the sample buffer `data`. -/
structure opj_image_comp_t where
  prec : Nat
  data : List Int
  deriving DecidableEq

/-- The fields of the engine's image object that `jp2_decode` reads.
`x1`, `y1` and `numcomps` are `OPJ_UINT32`; `comps` is indexed like the C
array (`comps i` is `comps[i]`). -/
structure opj_image_t where
  x1 : Nat
  y1 : Nat
  numcomps : Nat
  comps : Nat → opj_image_comp_t
  icc_profile_buf : Option Nat

/-- A diagnostic the engine emits through the handlers registered on the
codec. -/
inductive Message where
  | info (msg : String)
  | warning (msg : String)
  | error (msg : String)
  deriving DecidableEq

/-- What `opj_read_header` leaves behind: on `OPJ_TRUE` the image pointer is
set; on `OPJ_FALSE` it is `NULL` or points to an image still to be released. -/
inductive HeaderResult where
  | ok (image : Nat)
  | failed (image : Option Nat)
  deriving DecidableEq

/-- Image pointer stored in `image` after `opj_read_header`. -/
def HeaderResult.image : HeaderResult → Option Nat
  | .ok p => some p
  | .failed p => p

/-- Boolean returned by `opj_read_header`. -/
def HeaderResult.success : HeaderResult → Bool
  | .ok _ => true
  | .failed _ => false

/-- Answers of the external decoding engine during one call of `jp2_decode`.
Only the four processing calls receive the codec together with its registered
handlers, so only they can emit diagnostics; the `*_destroy` functions have no
access to the handlers. -/
structure Engine where
  OPJ_DPARAMETERS_IGNORE_PCLR_CMAP_CDEF_FLAG : Nat
  default_parameters : opj_dparameters_t
  create_decompress : OPJ_CODEC_FORMAT → Option Nat
  create_buffer_stream : Option Nat
  setup_decoder : Bool
  setup_decoder_messages : List Message
  read_header : HeaderResult
  read_header_messages : List Message
  decode : Bool
  decode_messages : List Message
  end_decompress : Bool
  end_decompress_messages : List Message
  decoded_image : opj_image_t

/-- Externally visible actions of one call, in program order. -/
inductive Event where
  | load_byte (index : Nat)
  | storeErrorMessage (msg : String)
  | jsPrintWarning (msg : String)
  | opj_create_decompress (format : OPJ_CODEC_FORMAT) (result : Option Nat)
  | opj_set_info_handler (codec : Option Nat)
  | opj_set_warning_handler (codec : Option Nat)
  | opj_set_error_handler (codec : Option Nat)
  | opj_set_default_decoder_parameters
  | opj_stream_create_buffer_stream (len : Nat) (result : Option Nat)
  | opj_setup_decoder (codec : Option Nat) (parameters : opj_dparameters_t) (result : Bool)
  | opj_read_header (stream codec : Option Nat) (result : Bool) (image : Option Nat)
  | opj_decode (codec stream image : Option Nat) (result : Bool)
  | opj_end_decompress (codec stream : Option Nat) (result : Bool)
  | opj_stream_destroy (stream : Option Nat)
  | opj_destroy_codec (codec : Option Nat)
  | opj_image_destroy (image : Option Nat)
  | free (buf : Nat)
  | copy_pixels_1 (c0 : List Int) (prec : Nat) (nb_pixels : Nat)
  | copy_pixels_3 (c0 c1 c2 : List Int) (nb_pixels : Nat)
  | copy_pixels_4 (c0 c1 c2 c3 : List Int) (nb_pixels : Nat)
  deriving DecidableEq

/-- Result of one call: the returned `int` and the actions performed. -/
structure Outcome where
  status : Int
  trace : List Event

/-! ## The callbacks -/

def error_callback (msg : String) : List Event := [Event.storeErrorMessage msg]

def warning_callback (msg : String) : List Event := [Event.jsPrintWarning msg]

def quiet_callback (_msg : String) : List Event := []

/-- The engine delivering one diagnostic to the handler registered for its
channel (`quiet_callback` for info, `warning_callback`, `error_callback`). -/
def deliver : Message → List Event
  | .info msg => quiet_callback msg
  | .warning msg => warning_callback msg
  | .error msg => error_callback msg

/-- Delivery of all diagnostics of one engine call, in order. -/
def relay : List Message → List Event
  | [] => []
  | m :: ms => deliver m ++ relay ms

/-! ## The format check -/

/-- Value of `int32data[k]`. -/
def int32data (data : Nat → Nat) (k : Nat) : Nat :=
  data (4 * k) % 256 + 256 * (data (4 * k + 1) % 256)
    + 65536 * (data (4 * k + 2) % 256) + 16777216 * (data (4 * k + 3) % 256)

/-- Byte loads performed by one evaluation of `int32data[k]`. -/
def load32 (k : Nat) : List Event :=
  [Event.load_byte (4 * k), Event.load_byte (4 * k + 1),
   Event.load_byte (4 * k + 2), Event.load_byte (4 * k + 3)]

/-- Pixel count `image->x1 * image->y1`: a product of two `OPJ_UINT32`. -/
def nb_pixels (image : opj_image_t) : Nat := (image.x1 * image.y1) % 2 ^ 32

/-- The `switch (numcomps)` of lines 153-165. -/
def copy_pixels (image : opj_image_t) : List Event :=
  match image.numcomps with
  | 1 => [Event.copy_pixels_1 (image.comps 0).data (image.comps 0).prec (nb_pixels image)]
  | 3 => [Event.copy_pixels_3 (image.comps 0).data (image.comps 1).data
            (image.comps 2).data (nb_pixels image)]
  | 4 => [Event.copy_pixels_4 (image.comps 0).data (image.comps 1).data
            (image.comps 2).data (image.comps 3).data (nb_pixels image)]
  | _ => []

/-- Lines 137-142: release of the colour-profile buffer when there is one. -/
def free_icc_profile (image : opj_image_t) : List Event :=
  match image.icc_profile_buf with
  | some buf => [Event.free buf]
  | none => []

/-- Lines 95-98: the engine defaults, with the ignore-palette flag OR-ed into
`flags` when `pdf_is_indexed_colormap` is non-zero. -/
def decode_parameters (eng : Engine) (pdf_is_indexed_colormap : Int) : opj_dparameters_t :=
  let parameters := eng.default_parameters
  if pdf_is_indexed_colormap ≠ 0 then
    { parameters with
      flags := parameters.flags ||| eng.OPJ_DPARAMETERS_IGNORE_PCLR_CMAP_CDEF_FLAG }
  else parameters

/-- Lines 83/85 and 91-169 of `jp2_decode`: everything after the format has
been recognised as `format`. -/
def decode_session (eng : Engine) (format : OPJ_CODEC_FORMAT) (data_size : Nat)
    (pdf_is_indexed_colormap : Int) : Outcome :=
  let l_codec := eng.create_decompress format
  let parameters := decode_parameters eng pdf_is_indexed_colormap
  let l_stream := eng.create_buffer_stream
  let t_setup : List Event :=
    [Event.opj_create_decompress format l_codec,
     Event.opj_set_info_handler l_codec,
     Event.opj_set_warning_handler l_codec,
     Event.opj_set_error_handler l_codec,
     Event.opj_set_default_decoder_parameters,
     Event.opj_stream_create_buffer_stream data_size l_stream,
     Event.opj_setup_decoder l_codec parameters eng.setup_decoder]
    ++ relay eng.setup_decoder_messages
  if eng.setup_decoder = false then
    { status := 1,
      trace := t_setup ++
        [Event.storeErrorMessage "Failed to setup the decoder",
         Event.opj_stream_destroy l_stream,
         Event.opj_destroy_codec l_codec] }
  else
    let image := eng.read_header.image
    let t_header : List Event :=
      t_setup ++
        [Event.opj_read_header l_stream l_codec eng.read_header.success image]
        ++ relay eng.read_header_messages
    if eng.read_header.success = false then
      { status := 1,
        trace := t_header ++
          [Event.storeErrorMessage "Failed to read the header",
           Event.opj_stream_destroy l_stream,
           Event.opj_destroy_codec l_codec,
           Event.opj_image_destroy image] }
    else
      let t_decode : List Event :=
        t_header ++ [Event.opj_decode l_codec l_stream image eng.decode]
          ++ relay eng.decode_messages
      let t_failed : List Event :=
        [Event.storeErrorMessage "Failed to decode the image",
         Event.opj_destroy_codec l_codec,
         Event.opj_stream_destroy l_stream,
         Event.opj_image_destroy image]
      if eng.decode = false then
        { status := 1, trace := t_decode ++ t_failed }
      else
        let t_end : List Event :=
          t_decode ++ [Event.opj_end_decompress l_codec l_stream eng.end_decompress]
            ++ relay eng.end_decompress_messages
        if eng.end_decompress = false then
          { status := 1, trace := t_end ++ t_failed }
        else
          { status := 0,
            trace := t_end ++
              [Event.opj_stream_destroy l_stream, Event.opj_destroy_codec l_codec]
              ++ free_icc_profile eng.decoded_image
              ++ copy_pixels eng.decoded_image
              ++ [Event.opj_image_destroy image] }

/-- The three branches of the `if / else if / else` of lines 80-89. -/
inductive ContainerKind where
  | Jp2Box
  | RawCodestream
  | Unrecognized
  deriving DecidableEq

/-- The `else if` / `else` of lines 84-89, reached after the loads `loads`
of the first condition. -/
def codestream_or_unknown (data : Nat → Nat) (loads : List Event) :
    ContainerKind × List Event :=
  if int32data data 0 = J2K_CODESTREAM_MAGIC then
    (ContainerKind.RawCodestream, loads ++ load32 0)
  else
    (ContainerKind.Unrecognized, loads ++ load32 0)

/-- The conditions of lines 80-89, evaluated left to right with the
short-circuiting of `||` and `&&`: the branch taken and the loads performed.
`data_size` is not an input of the check. -/
def format_check (data : Nat → Nat) : ContainerKind × List Event :=
  if int32data data 0 = JP2_MAGIC then
    (ContainerKind.Jp2Box, load32 0)
  else if int32data data 0 = JP2_RFC3745_MAGIC_0 then
    if int32data data 1 = JP2_RFC3745_MAGIC_1 then
      if int32data data 2 = JP2_RFC3745_MAGIC_2 then
        (ContainerKind.Jp2Box, load32 0 ++ load32 0 ++ load32 1 ++ load32 2)
      else
        codestream_or_unknown data (load32 0 ++ load32 0 ++ load32 1 ++ load32 2)
    else
      codestream_or_unknown data (load32 0 ++ load32 0 ++ load32 1)
  else
    codestream_or_unknown data (load32 0 ++ load32 0)

/-- The exported function `jp2_decode` (lines 70-170).  `pdf_numcomps` and
`pdf_smaks_in_data` are parameters the body never reads. -/
def jp2_decode (eng : Engine) (data : Nat → Nat) (data_size : Nat)
    (_pdf_numcomps : Nat) (pdf_is_indexed_colormap : Int) (_pdf_smaks_in_data : Int) :
    Outcome :=
  match format_check data with
  | (ContainerKind.Jp2Box, loads) =>
    let r := decode_session eng OPJ_CODEC_FORMAT.OPJ_CODEC_JP2 data_size
      pdf_is_indexed_colormap
    { status := r.status, trace := loads ++ r.trace }
  | (ContainerKind.RawCodestream, loads) =>
    let r := decode_session eng OPJ_CODEC_FORMAT.OPJ_CODEC_J2K data_size
      pdf_is_indexed_colormap
    { status := r.status, trace := loads ++ r.trace }
  | (ContainerKind.Unrecognized, loads) =>
    { status := 1, trace := loads ++ [Event.storeErrorMessage "Unknown format"] }

/-! ## Observations on a trace -/

/-- Byte indices loaded by the format check, in order. -/
def loaded_indices (t : List Event) : List Nat :=
  t.filterMap fun e => match e with
    | Event.load_byte i => some i
    | _ => none

/-- Everything a call did besides loading bytes of its input. -/
def actions (t : List Event) : List Event :=
  t.filter fun e => match e with
    | Event.load_byte _ => false
    | _ => true

/-- Messages handed to `storeErrorMessage`, in order (last one wins). -/
def stored_messages (t : List Event) : List String :=
  t.filterMap fun e => match e with
    | Event.storeErrorMessage m => some m
    | _ => none

/-- Calls into the decoding engine (every `opj_*` function). -/
def engine_calls (t : List Event) : List Event :=
  t.filter fun e => match e with
    | Event.load_byte _ => false
    | Event.storeErrorMessage _ => false
    | Event.jsPrintWarning _ => false
    | Event.free _ => false
    | Event.copy_pixels_1 _ _ _ => false
    | Event.copy_pixels_3 _ _ _ _ => false
    | Event.copy_pixels_4 _ _ _ _ _ => false
    | _ => true

/-- Calls of the host pixel sink. -/
def pixel_sink_calls (t : List Event) : List Event :=
  t.filter fun e => match e with
    | Event.copy_pixels_1 _ _ _ => true
    | Event.copy_pixels_3 _ _ _ _ => true
    | Event.copy_pixels_4 _ _ _ _ _ => true
    | _ => false

/-- Pixel counts handed to the pixel sink. -/
def sink_pixel_counts (t : List Event) : List Nat :=
  t.filterMap fun e => match e with
    | Event.copy_pixels_1 _ _ n => some n
    | Event.copy_pixels_3 _ _ _ n => some n
    | Event.copy_pixels_4 _ _ _ _ n => some n
    | _ => none

/-- Codec modes requested from `opj_create_decompress`. -/
def created_codecs (t : List Event) : List OPJ_CODEC_FORMAT :=
  t.filterMap fun e => match e with
    | Event.opj_create_decompress f _ => some f
    | _ => none

/-- Parameter records handed to `opj_setup_decoder`. -/
def setup_parameters (t : List Event) : List opj_dparameters_t :=
  t.filterMap fun e => match e with
    | Event.opj_setup_decoder _ p _ => some p
    | _ => none

/-- The four processing steps of the engine. -/
inductive Step where
  | setup_decoder
  | read_header
  | decode
  | end_decompress
  deriving DecidableEq

/-- Processing steps performed, each with the boolean it returned. -/
def decode_steps (t : List Event) : List (Step × Bool) :=
  t.filterMap fun e => match e with
    | Event.opj_setup_decoder _ _ r => some (Step.setup_decoder, r)
    | Event.opj_read_header _ _ r _ => some (Step.read_header, r)
    | Event.opj_decode _ _ _ r => some (Step.decode, r)
    | Event.opj_end_decompress _ _ r => some (Step.end_decompress, r)
    | _ => none

/-- The three kinds of handle of a session. -/
inductive Resource where
  | codec
  | stream
  | image
  deriving DecidableEq

/-- The handle behind a pointer, tagged with its kind; nothing for `NULL`. -/
def handle (k : Resource) (p : Option Nat) : List (Resource × Nat) :=
  match p with
  | some h => [(k, h)]
  | none => []

/-- Handles (non-NULL pointers) obtained from the engine, with their kind: the
results of the two constructors and the image left by `opj_read_header`. -/
def acquired (t : List Event) : List (Resource × Nat) :=
  t.flatMap fun e => match e with
    | Event.opj_create_decompress _ p => handle Resource.codec p
    | Event.opj_stream_create_buffer_stream _ p => handle Resource.stream p
    | Event.opj_read_header _ _ _ p => handle Resource.image p
    | _ => []

/-- Handles (non-NULL pointers) given to a destroy function, with their kind.
A destroy call on `NULL` releases nothing. -/
def released (t : List Event) : List (Resource × Nat) :=
  t.flatMap fun e => match e with
    | Event.opj_destroy_codec p => handle Resource.codec p
    | Event.opj_stream_destroy p => handle Resource.stream p
    | Event.opj_image_destroy p => handle Resource.image p
    | _ => []

/-- Handles of one kind in a list of handles. -/
def of_kind (k : Resource) (l : List (Resource × Nat)) : List Nat :=
  l.filterMap fun p => if p.1 = k then some p.2 else none

/-- Kinds of the destroy calls made, in call order (calls on `NULL` included). -/
def destroy_calls (t : List Event) : List Resource :=
  t.filterMap fun e => match e with
    | Event.opj_destroy_codec _ => some Resource.codec
    | Event.opj_stream_destroy _ => some Resource.stream
    | Event.opj_image_destroy _ => some Resource.image
    | _ => none

/-! ## Sample inputs -/

/-- Memory holding the listed bytes at the start of the buffer and zero after. -/
def bytes (l : List Nat) : Nat → Nat := fun i => l.getD i 0

/-- A component of `n` samples at 8 bits. -/
def sample_comp (v : Int) (n : Nat) : opj_image_comp_t :=
  { prec := 8, data := List.replicate n v }

/-- A `2 x 3` image with `numcomps` components; component `i` holds the value `i`. -/
def sample_image (numcomps : Nat) : opj_image_t :=
  { x1 := 2, y1 := 3, numcomps := numcomps,
    comps := fun i => sample_comp i 6,
    icc_profile_buf := some 4096 }

/-- An engine on which every call succeeds and which decodes `image`. -/
def sample_engine (image : opj_image_t) : Engine :=
  { OPJ_DPARAMETERS_IGNORE_PCLR_CMAP_CDEF_FLAG := 1,
    default_parameters := { flags := 2, other_fields := [0, 0, -1, -1] },
    create_decompress := fun _ => some 100,
    create_buffer_stream := some 200,
    setup_decoder := true,
    setup_decoder_messages := [],
    read_header := HeaderResult.ok 300,
    read_header_messages := [Message.info "header", Message.warning "odd box"],
    decode := true,
    decode_messages := [],
    end_decompress := true,
    end_decompress_messages := [],
    decoded_image := image }

/-- A one-component image of `65536 x 65536` pixels: the product is `2 ^ 32`. -/
def huge_image : opj_image_t :=
  { x1 := 65536, y1 := 65536, numcomps := 1,
    comps := fun _ => { prec := 8, data := [] },
    icc_profile_buf := none }

/-- An engine on which `opj_decode` fails after the header was read. -/
def decode_failing_engine : Engine :=
  { sample_engine (sample_image 3) with
    decode := false,
    decode_messages := [Message.error "tile is corrupt"] }

/-! ## The steps of a call, as the claims word them -/

/-- The format is recognised: the check did not end in its final `else`. -/
def recognised (data : Nat → Nat) : Prop :=
  (format_check data).1 ≠ ContainerKind.Unrecognized

instance (data : Nat → Nat) : Decidable (recognised data) := by
  unfold recognised
  infer_instance

/-- The four processing steps in call order, each with the engine's answer. -/
def engine_steps (eng : Engine) : List (Step × Bool) :=
  [(Step.setup_decoder, eng.setup_decoder),
   (Step.read_header, eng.read_header.success),
   (Step.decode, eng.decode),
   (Step.end_decompress, eng.end_decompress)]

/-- The steps of a list up to and including the first one that fails. -/
def through_first_failure : List (Step × Bool) → List (Step × Bool)
  | [] => []
  | (s, true) :: rest => (s, true) :: through_first_failure rest
  | (s, false) :: _ => [(s, false)]

/-- Message of the first failing step, in the order format check, setup, header
read, decode and finalisation; `none` when every step succeeds. -/
def first_failure (eng : Engine) (data : Nat → Nat) : Option String :=
  if ¬ recognised data then some "Unknown format"
  else if eng.setup_decoder = false then some "Failed to setup the decoder"
  else if eng.read_header.success = false then some "Failed to read the header"
  else if eng.decode = false ∨ eng.end_decompress = false then
    some "Failed to decode the image"
  else none

/-! ## Helper lemmas -/

theorem relay_filterMap_nil {α : Type} (f : Event → Option α)
    (h1 : ∀ m, f (Event.storeErrorMessage m) = none)
    (h2 : ∀ m, f (Event.jsPrintWarning m) = none) (ms : List Message) :
    (relay ms).filterMap f = [] := by
  induction ms with
  | nil => rfl
  | cons m ms ih =>
    cases m <;>
      simp [relay, deliver, quiet_callback, warning_callback, error_callback,
        List.filterMap_cons, h1, h2, ih]

theorem relay_filter_nil (p : Event → Bool)
    (h1 : ∀ m, p (Event.storeErrorMessage m) = false)
    (h2 : ∀ m, p (Event.jsPrintWarning m) = false) (ms : List Message) :
    (relay ms).filter p = [] := by
  induction ms with
  | nil => rfl
  | cons m ms ih =>
    cases m <;>
      simp [relay, deliver, quiet_callback, warning_callback, error_callback,
        List.filter_cons, h1, h2, ih]

theorem free_icc_filterMap_nil {α : Type} (f : Event → Option α)
    (h : ∀ b, f (Event.free b) = none) (image : opj_image_t) :
    (free_icc_profile image).filterMap f = [] := by
  unfold free_icc_profile
  split <;> simp [List.filterMap_cons, h]

theorem copy_pixels_filterMap_nil {α : Type} (f : Event → Option α)
    (h1 : ∀ a p n, f (Event.copy_pixels_1 a p n) = none)
    (h3 : ∀ a b c n, f (Event.copy_pixels_3 a b c n) = none)
    (h4 : ∀ a b c d n, f (Event.copy_pixels_4 a b c d n) = none) (image : opj_image_t) :
    (copy_pixels image).filterMap f = [] := by
  unfold copy_pixels
  split <;> simp [List.filterMap_cons, h1, h3, h4]

theorem created_codecs_session (eng : Engine) (f : OPJ_CODEC_FORMAT) (n : Nat) (i : Int) :
    created_codecs (decode_session eng f n i).trace = [f] := by
  unfold decode_session created_codecs
  simp only []
  split_ifs <;> simp [List.filterMap_append, List.filterMap_cons, relay_filterMap_nil,
    free_icc_filterMap_nil, copy_pixels_filterMap_nil]

theorem actions_session_head (eng : Engine) (f : OPJ_CODEC_FORMAT) (n : Nat) (i : Int) :
    (actions (decode_session eng f n i).trace).head?
      = some (Event.opj_create_decompress f (eng.create_decompress f)) := by
  unfold decode_session actions
  simp only []
  split_ifs <;> simp [List.filter_cons]

theorem loaded_indices_session (eng : Engine) (f : OPJ_CODEC_FORMAT) (n : Nat) (i : Int) :
    loaded_indices (decode_session eng f n i).trace = [] := by
  unfold decode_session loaded_indices
  simp only []
  split_ifs <;> simp [List.filterMap_append, List.filterMap_cons, relay_filterMap_nil,
    free_icc_filterMap_nil, copy_pixels_filterMap_nil]

theorem loaded_indices_format_check (data : Nat → Nat) :
    ∀ i ∈ loaded_indices (format_check data).2, i < 12 := by
  unfold format_check codestream_or_unknown loaded_indices load32
  split_ifs <;> simp [List.filterMap_cons]

theorem jp2_decode_eq (eng : Engine) (data : Nat → Nat) (n pn : Nat) (i sm : Int) :
    jp2_decode eng data n pn i sm =
      match (format_check data).1 with
      | ContainerKind.Jp2Box =>
        { status := (decode_session eng OPJ_CODEC_FORMAT.OPJ_CODEC_JP2 n i).status,
          trace := (format_check data).2
            ++ (decode_session eng OPJ_CODEC_FORMAT.OPJ_CODEC_JP2 n i).trace }
      | ContainerKind.RawCodestream =>
        { status := (decode_session eng OPJ_CODEC_FORMAT.OPJ_CODEC_J2K n i).status,
          trace := (format_check data).2
            ++ (decode_session eng OPJ_CODEC_FORMAT.OPJ_CODEC_J2K n i).trace }
      | ContainerKind.Unrecognized =>
        { status := 1,
          trace := (format_check data).2 ++ [Event.storeErrorMessage "Unknown format"] } := by
  unfold jp2_decode
  rcases h : format_check data with ⟨k, l⟩
  cases k <;> rfl

theorem actions_format_check (data : Nat → Nat) : actions (format_check data).2 = [] := by
  unfold format_check codestream_or_unknown actions load32
  split_ifs <;> simp [List.filter_cons]

theorem format_check_jp2 (data : Nat → Nat)
    (h : int32data data 0 = JP2_MAGIC ∨
      (int32data data 0 = JP2_RFC3745_MAGIC_0 ∧ int32data data 1 = JP2_RFC3745_MAGIC_1 ∧
        int32data data 2 = JP2_RFC3745_MAGIC_2)) :
    (format_check data).1 = ContainerKind.Jp2Box := by
  unfold format_check codestream_or_unknown
  split_ifs <;> simp_all

theorem format_check_j2k (data : Nat → Nat) (h : int32data data 0 = J2K_CODESTREAM_MAGIC) :
    (format_check data).1 = ContainerKind.RawCodestream := by
  unfold format_check codestream_or_unknown
  split_ifs <;> simp_all [JP2_MAGIC, J2K_CODESTREAM_MAGIC, JP2_RFC3745_MAGIC_0]

theorem format_check_unknown (data : Nat → Nat)
    (h1 : int32data data 0 ≠ JP2_MAGIC)
    (h2 : ¬ (int32data data 0 = JP2_RFC3745_MAGIC_0 ∧ int32data data 1 = JP2_RFC3745_MAGIC_1 ∧
        int32data data 2 = JP2_RFC3745_MAGIC_2))
    (h3 : int32data data 0 ≠ J2K_CODESTREAM_MAGIC) :
    (format_check data).1 = ContainerKind.Unrecognized := by
  unfold format_check codestream_or_unknown
  split_ifs <;> simp_all

/-- C1 (as amended): a buffer that starts with the bytes FF 4F FF 51 (little-endian word
0x51FF4FFF) is classified as a raw codestream; the first action of `jp2_decode` is to create
the codec in `OPJ_CODEC_J2K` mode, the only mode requested in the call. -/
theorem codestream_marker_selects_j2k (eng : Engine) (data : Nat → Nat) (data_size : Nat)
    (pdf_numcomps : Nat) (pdf_is_indexed_colormap pdf_smaks_in_data : Int)
    (h : data 0 = 0xFF ∧ data 1 = 0x4F ∧ data 2 = 0xFF ∧ data 3 = 0x51) :
    int32data data 0 = 0x51FF4FFF ∧
    (format_check data).1 = ContainerKind.RawCodestream ∧
    created_codecs (jp2_decode eng data data_size pdf_numcomps pdf_is_indexed_colormap
      pdf_smaks_in_data).trace = [OPJ_CODEC_FORMAT.OPJ_CODEC_J2K] ∧
    (actions (jp2_decode eng data data_size pdf_numcomps pdf_is_indexed_colormap
      pdf_smaks_in_data).trace).head?
      = some (Event.opj_create_decompress OPJ_CODEC_FORMAT.OPJ_CODEC_J2K
          (eng.create_decompress OPJ_CODEC_FORMAT.OPJ_CODEC_J2K)) := by
  obtain ⟨h0, h1, h2, h3⟩ := h
  have hw : int32data data 0 = 0x51FF4FFF := by
    simp [int32data, h0, h1, h2, h3]
  have hk := format_check_j2k data hw
  refine ⟨hw, hk, ?_, ?_⟩
  · rw [jp2_decode_eq, hk]
    have hl : created_codecs (format_check data).2 = [] := by
      unfold format_check codestream_or_unknown created_codecs load32
      split_ifs <;> simp [List.filterMap_cons]
    simp only [created_codecs, List.filterMap_append] at hl ⊢
    rw [hl]
    exact created_codecs_session eng _ _ _
  · rw [jp2_decode_eq, hk]
    have hl := actions_format_check data
    simp only [actions, List.filter_append] at hl ⊢
    rw [hl]
    exact actions_session_head eng _ _ _

/-- The amended C1 at the four-byte buffer FF 4F FF 51. -/
theorem codestream_marker_selects_j2k_witness :
    int32data (bytes [0xFF, 0x4F, 0xFF, 0x51]) 0 = 0x51FF4FFF ∧
    (format_check (bytes [0xFF, 0x4F, 0xFF, 0x51])).1 = ContainerKind.RawCodestream ∧
    created_codecs (jp2_decode (sample_engine (sample_image 1)) (bytes [0xFF, 0x4F, 0xFF, 0x51])
      4 1 0 0).trace = [OPJ_CODEC_FORMAT.OPJ_CODEC_J2K] ∧
    (actions (jp2_decode (sample_engine (sample_image 1)) (bytes [0xFF, 0x4F, 0xFF, 0x51])
      4 1 0 0).trace).head?
      = some (Event.opj_create_decompress OPJ_CODEC_FORMAT.OPJ_CODEC_J2K
          ((sample_engine (sample_image 1)).create_decompress OPJ_CODEC_FORMAT.OPJ_CODEC_J2K)) :=
  codestream_marker_selects_j2k (sample_engine (sample_image 1))
    (bytes [0xFF, 0x4F, 0xFF, 0x51]) 4 1 0 0 (by decide)

/-- C1 as stated fails: a 12-byte buffer that starts with the bytes 51 FF 4F FF has the
first word 0xFF4FFF51 and is rejected with "Unknown format"; no codec is created. -/
theorem reversed_marker_is_unknown :
    (bytes [0x51, 0xFF, 0x4F, 0xFF, 0, 0, 0, 0, 0, 0, 0, 0]) 0 = 0x51 ∧
    (bytes [0x51, 0xFF, 0x4F, 0xFF, 0, 0, 0, 0, 0, 0, 0, 0]) 1 = 0xFF ∧
    (bytes [0x51, 0xFF, 0x4F, 0xFF, 0, 0, 0, 0, 0, 0, 0, 0]) 2 = 0x4F ∧
    (bytes [0x51, 0xFF, 0x4F, 0xFF, 0, 0, 0, 0, 0, 0, 0, 0]) 3 = 0xFF ∧
    int32data (bytes [0x51, 0xFF, 0x4F, 0xFF, 0, 0, 0, 0, 0, 0, 0, 0]) 0 = 0xFF4FFF51 ∧
    (format_check (bytes [0x51, 0xFF, 0x4F, 0xFF, 0, 0, 0, 0, 0, 0, 0, 0])).1
      = ContainerKind.Unrecognized ∧
    created_codecs (jp2_decode (sample_engine (sample_image 1))
      (bytes [0x51, 0xFF, 0x4F, 0xFF, 0, 0, 0, 0, 0, 0, 0, 0]) 12 1 0 0).trace = [] ∧
    actions (jp2_decode (sample_engine (sample_image 1))
      (bytes [0x51, 0xFF, 0x4F, 0xFF, 0, 0, 0, 0, 0, 0, 0, 0]) 12 1 0 0).trace
      = [Event.storeErrorMessage "Unknown format"] ∧
    (jp2_decode (sample_engine (sample_image 1))
      (bytes [0x51, 0xFF, 0x4F, 0xFF, 0, 0, 0, 0, 0, 0, 0, 0]) 12 1 0 0).status = 1 := by
  decide

theorem created_codecs_format_check (data : Nat → Nat) :
    created_codecs (format_check data).2 = [] := by
  unfold format_check codestream_or_unknown created_codecs load32
  split_ifs <;> simp [List.filterMap_cons]

/-- C2: a buffer of at least 12 bytes whose first little-endian word is the bare JP2 magic
word 0x0A870A0D, or whose first three words are 0x0C000000, 0x2020506A, 0x0A870A0D, is
classified as a JP2 box file: the first action of `jp2_decode` creates the codec in
`OPJ_CODEC_JP2` mode, no other mode is requested, and the check stays inside the buffer. -/
theorem jp2_signature_selects_jp2 (eng : Engine) (data : Nat → Nat) (data_size : Nat)
    (pdf_numcomps : Nat) (pdf_is_indexed_colormap pdf_smaks_in_data : Int)
    (hsize : 12 ≤ data_size)
    (h : int32data data 0 = 0x0A870A0D ∨
      (int32data data 0 = 0x0C000000 ∧ int32data data 1 = 0x2020506A ∧
        int32data data 2 = 0x0A870A0D)) :
    (format_check data).1 = ContainerKind.Jp2Box ∧
    created_codecs (jp2_decode eng data data_size pdf_numcomps pdf_is_indexed_colormap
      pdf_smaks_in_data).trace = [OPJ_CODEC_FORMAT.OPJ_CODEC_JP2] ∧
    (actions (jp2_decode eng data data_size pdf_numcomps pdf_is_indexed_colormap
      pdf_smaks_in_data).trace).head?
      = some (Event.opj_create_decompress OPJ_CODEC_FORMAT.OPJ_CODEC_JP2
          (eng.create_decompress OPJ_CODEC_FORMAT.OPJ_CODEC_JP2)) ∧
    ∀ i ∈ loaded_indices (jp2_decode eng data data_size pdf_numcomps pdf_is_indexed_colormap
      pdf_smaks_in_data).trace, i < data_size := by
  have hk : (format_check data).1 = ContainerKind.Jp2Box := format_check_jp2 data h
  refine ⟨hk, ?_, ?_, ?_⟩
  · rw [jp2_decode_eq, hk]
    have hl := created_codecs_format_check data
    simp only [created_codecs, List.filterMap_append] at hl ⊢
    rw [hl]
    exact created_codecs_session eng _ _ _
  · rw [jp2_decode_eq, hk]
    have hl := actions_format_check data
    simp only [actions, List.filter_append] at hl ⊢
    rw [hl]
    exact actions_session_head eng _ _ _
  · intro i hi
    rw [jp2_decode_eq, hk] at hi
    have hs := loaded_indices_session eng OPJ_CODEC_FORMAT.OPJ_CODEC_JP2 data_size
      pdf_is_indexed_colormap
    simp only [loaded_indices, List.filterMap_append] at hs hi
    rw [hs, List.append_nil] at hi
    have := loaded_indices_format_check data i hi
    omega

/-- C2 at the 12-byte signature box 00 00 00 0C 6A 50 20 20 0D 0A 87 0A. -/
theorem jp2_signature_selects_jp2_witness :
    (format_check (bytes [0, 0, 0, 0x0C, 0x6A, 0x50, 0x20, 0x20, 0x0D, 0x0A, 0x87, 0x0A])).1
      = ContainerKind.Jp2Box ∧
    created_codecs (jp2_decode (sample_engine (sample_image 3))
      (bytes [0, 0, 0, 0x0C, 0x6A, 0x50, 0x20, 0x20, 0x0D, 0x0A, 0x87, 0x0A])
      12 3 0 0).trace = [OPJ_CODEC_FORMAT.OPJ_CODEC_JP2] ∧
    (actions (jp2_decode (sample_engine (sample_image 3))
      (bytes [0, 0, 0, 0x0C, 0x6A, 0x50, 0x20, 0x20, 0x0D, 0x0A, 0x87, 0x0A])
      12 3 0 0).trace).head?
      = some (Event.opj_create_decompress OPJ_CODEC_FORMAT.OPJ_CODEC_JP2
          ((sample_engine (sample_image 3)).create_decompress OPJ_CODEC_FORMAT.OPJ_CODEC_JP2)) ∧
    ∀ i ∈ loaded_indices (jp2_decode (sample_engine (sample_image 3))
      (bytes [0, 0, 0, 0x0C, 0x6A, 0x50, 0x20, 0x20, 0x0D, 0x0A, 0x87, 0x0A])
      12 3 0 0).trace, i < 12 :=
  jp2_signature_selects_jp2 (sample_engine (sample_image 3))
    (bytes [0, 0, 0, 0x0C, 0x6A, 0x50, 0x20, 0x20, 0x0D, 0x0A, 0x87, 0x0A]) 12 3 0 0
    (by decide) (by decide)

/-- C3: when the leading words match none of the three recognised patterns, `jp2_decode`
returns a non-zero status, its only action besides loading bytes is storing
"Unknown format", and it makes no call to the engine: nothing is created or acquired, no
handler is registered and the pixel sink is not called. -/
theorem unknown_format_rejected (eng : Engine) (data : Nat → Nat) (data_size : Nat)
    (pdf_numcomps : Nat) (pdf_is_indexed_colormap pdf_smaks_in_data : Int)
    (h1 : int32data data 0 ≠ JP2_MAGIC)
    (h2 : ¬ (int32data data 0 = JP2_RFC3745_MAGIC_0 ∧ int32data data 1 = JP2_RFC3745_MAGIC_1 ∧
        int32data data 2 = JP2_RFC3745_MAGIC_2))
    (h3 : int32data data 0 ≠ J2K_CODESTREAM_MAGIC) :
    (jp2_decode eng data data_size pdf_numcomps pdf_is_indexed_colormap
      pdf_smaks_in_data).status ≠ 0 ∧
    actions (jp2_decode eng data data_size pdf_numcomps pdf_is_indexed_colormap
      pdf_smaks_in_data).trace = [Event.storeErrorMessage "Unknown format"] ∧
    stored_messages (jp2_decode eng data data_size pdf_numcomps pdf_is_indexed_colormap
      pdf_smaks_in_data).trace = ["Unknown format"] ∧
    engine_calls (jp2_decode eng data data_size pdf_numcomps pdf_is_indexed_colormap
      pdf_smaks_in_data).trace = [] ∧
    pixel_sink_calls (jp2_decode eng data data_size pdf_numcomps pdf_is_indexed_colormap
      pdf_smaks_in_data).trace = [] ∧
    acquired (jp2_decode eng data data_size pdf_numcomps pdf_is_indexed_colormap
      pdf_smaks_in_data).trace = [] := by
  have hk := format_check_unknown data h1 h2 h3
  rw [jp2_decode_eq, hk]
  have ha := actions_format_check data
  have hm : stored_messages (format_check data).2 = [] := by
    unfold format_check codestream_or_unknown stored_messages load32
    split_ifs <;> simp [List.filterMap_cons]
  have he : engine_calls (format_check data).2 = [] := by
    unfold format_check codestream_or_unknown engine_calls load32
    split_ifs <;> simp [List.filter_cons]
  have hp : pixel_sink_calls (format_check data).2 = [] := by
    unfold format_check codestream_or_unknown pixel_sink_calls load32
    split_ifs <;> simp [List.filter_cons]
  have hq : acquired (format_check data).2 = [] := by
    unfold format_check codestream_or_unknown acquired load32
    split_ifs <;> simp
  simp only [actions, stored_messages, engine_calls, pixel_sink_calls, acquired,
    List.filter_append, List.filterMap_append, List.flatMap_append] at ha hm he hp hq ⊢
  rw [ha, hm, he, hp, hq]
  simp [List.filter_cons, List.filterMap_cons]

/-- C3 at a six-byte buffer holding the text of a PDF header. -/
theorem unknown_format_rejected_witness :
    (jp2_decode (sample_engine (sample_image 1)) (bytes [0x25, 0x50, 0x44, 0x46, 0x2D, 0x31])
      6 1 0 0).status ≠ 0 ∧
    actions (jp2_decode (sample_engine (sample_image 1))
      (bytes [0x25, 0x50, 0x44, 0x46, 0x2D, 0x31]) 6 1 0 0).trace
      = [Event.storeErrorMessage "Unknown format"] ∧
    stored_messages (jp2_decode (sample_engine (sample_image 1))
      (bytes [0x25, 0x50, 0x44, 0x46, 0x2D, 0x31]) 6 1 0 0).trace = ["Unknown format"] ∧
    engine_calls (jp2_decode (sample_engine (sample_image 1))
      (bytes [0x25, 0x50, 0x44, 0x46, 0x2D, 0x31]) 6 1 0 0).trace = [] ∧
    pixel_sink_calls (jp2_decode (sample_engine (sample_image 1))
      (bytes [0x25, 0x50, 0x44, 0x46, 0x2D, 0x31]) 6 1 0 0).trace = [] ∧
    acquired (jp2_decode (sample_engine (sample_image 1))
      (bytes [0x25, 0x50, 0x44, 0x46, 0x2D, 0x31]) 6 1 0 0).trace = [] :=
  unknown_format_rejected (sample_engine (sample_image 1))
    (bytes [0x25, 0x50, 0x44, 0x46, 0x2D, 0x31]) 6 1 0 0
    (by decide) (by decide) (by decide)

/-- C4 (as amended): for a buffer of 4 to 11 bytes whose first word is neither the bare JP2
magic word nor the codestream magic, and for which a first word 0x0C000000 comes with at
least 8 bytes and a second word other than 0x2020506A, the format check loads no byte at an
index at or beyond `data_size` and `jp2_decode` returns non-zero with "Unknown format". -/
theorem short_buffer_unrecognized (eng : Engine) (data : Nat → Nat) (data_size : Nat)
    (pdf_numcomps : Nat) (pdf_is_indexed_colormap pdf_smaks_in_data : Int)
    (hshort : data_size < 12) (hword : 4 ≤ data_size)
    (h1 : int32data data 0 ≠ JP2_MAGIC)
    (h3 : int32data data 0 ≠ J2K_CODESTREAM_MAGIC)
    (h2 : int32data data 0 = JP2_RFC3745_MAGIC_0 →
      8 ≤ data_size ∧ int32data data 1 ≠ JP2_RFC3745_MAGIC_1) :
    (∀ i ∈ loaded_indices (jp2_decode eng data data_size pdf_numcomps pdf_is_indexed_colormap
      pdf_smaks_in_data).trace, i < data_size) ∧
    (format_check data).1 = ContainerKind.Unrecognized ∧
    (jp2_decode eng data data_size pdf_numcomps pdf_is_indexed_colormap
      pdf_smaks_in_data).status ≠ 0 ∧
    actions (jp2_decode eng data data_size pdf_numcomps pdf_is_indexed_colormap
      pdf_smaks_in_data).trace = [Event.storeErrorMessage "Unknown format"] := by
  have hk : (format_check data).1 = ContainerKind.Unrecognized :=
    format_check_unknown data h1 (fun h => (h2 h.1).2 h.2.1) h3
  refine ⟨?_, hk, ?_, ?_⟩
  · rw [jp2_decode_eq, hk]
    simp only [loaded_indices, List.filterMap_append]
    unfold format_check codestream_or_unknown load32
    split_ifs <;>
      first
        | exact absurd ‹int32data data 0 = JP2_MAGIC› h1
        | exact absurd ‹int32data data 1 = JP2_RFC3745_MAGIC_1›
            (h2 ‹int32data data 0 = JP2_RFC3745_MAGIC_0›).2
        | exact absurd ‹int32data data 0 = J2K_CODESTREAM_MAGIC› h3
        | (have hb := h2 ‹int32data data 0 = JP2_RFC3745_MAGIC_0›
           simp [List.filterMap_cons]
           omega)
        | (simp [List.filterMap_cons]
           omega)
  · rw [jp2_decode_eq, hk]
    simp
  · rw [jp2_decode_eq, hk]
    have ha := actions_format_check data
    simp only [actions, List.filter_append] at ha ⊢
    rw [ha]
    simp [List.filter_cons]

/-- The amended C4 at an eight-byte buffer whose first word is 0x0C000000 and whose second
word is not 0x2020506A. -/
theorem short_buffer_unrecognized_witness :
    (∀ i ∈ loaded_indices (jp2_decode (sample_engine (sample_image 1))
      (bytes [0, 0, 0, 0x0C, 0x6A, 0x50, 0x20, 0x21]) 8 1 0 0).trace, i < 8) ∧
    (format_check (bytes [0, 0, 0, 0x0C, 0x6A, 0x50, 0x20, 0x21])).1
      = ContainerKind.Unrecognized ∧
    (jp2_decode (sample_engine (sample_image 1))
      (bytes [0, 0, 0, 0x0C, 0x6A, 0x50, 0x20, 0x21]) 8 1 0 0).status ≠ 0 ∧
    actions (jp2_decode (sample_engine (sample_image 1))
      (bytes [0, 0, 0, 0x0C, 0x6A, 0x50, 0x20, 0x21]) 8 1 0 0).trace
      = [Event.storeErrorMessage "Unknown format"] :=
  short_buffer_unrecognized (sample_engine (sample_image 1))
    (bytes [0, 0, 0, 0x0C, 0x6A, 0x50, 0x20, 0x21]) 8 1 0 0
    (by decide) (by decide) (by decide) (by decide) (by decide)

/-- C4 as stated fails twice: the four-byte buffer FF 4F FF 51 is shorter than 12 bytes
and is decoded as a raw codestream with status 0, and for a two-byte buffer the check
loads the byte at index 3. -/
theorem short_buffer_counterexample :
    (4 < 12 ∧
      (∀ i ∈ loaded_indices (jp2_decode (sample_engine (sample_image 1))
        (bytes [0xFF, 0x4F, 0xFF, 0x51]) 4 1 0 0).trace, i < 4) ∧
      (format_check (bytes [0xFF, 0x4F, 0xFF, 0x51])).1 = ContainerKind.RawCodestream ∧
      (jp2_decode (sample_engine (sample_image 1))
        (bytes [0xFF, 0x4F, 0xFF, 0x51]) 4 1 0 0).status = 0 ∧
      stored_messages (jp2_decode (sample_engine (sample_image 1))
        (bytes [0xFF, 0x4F, 0xFF, 0x51]) 4 1 0 0).trace = []) ∧
    (2 < 12 ∧
      3 ∈ loaded_indices (jp2_decode (sample_engine (sample_image 1))
        (bytes [0xFF, 0x4F]) 2 1 0 0).trace ∧ ¬ 3 < 2) := by
  decide


theorem session_status_zero_iff (eng : Engine) (f : OPJ_CODEC_FORMAT) (n : Nat) (i : Int) :
    (decode_session eng f n i).status = 0 ↔
      (eng.setup_decoder = true ∧ eng.read_header.success = true ∧
        eng.decode = true ∧ eng.end_decompress = true) := by
  unfold decode_session
  simp only []
  split_ifs <;> simp_all

theorem session_failure_report (eng : Engine) (f : OPJ_CODEC_FORMAT) (n : Nat) (i : Int)
    (h : (decode_session eng f n i).status ≠ 0) :
    (stored_messages (decode_session eng f n i).trace).getLast? =
      (if eng.setup_decoder = false then some "Failed to setup the decoder"
       else if eng.read_header.success = false then some "Failed to read the header"
       else if eng.decode = false ∨ eng.end_decompress = false then
         some "Failed to decode the image"
       else none) ∧
    pixel_sink_calls (decode_session eng f n i).trace = [] ∧
    decode_steps (decode_session eng f n i).trace = through_first_failure (engine_steps eng) := by
  unfold decode_session at h ⊢
  simp only [] at h ⊢
  unfold engine_steps
  split_ifs at h ⊢ <;>
    simp_all [stored_messages, pixel_sink_calls, decode_steps, through_first_failure,
      List.filterMap_append, List.filter_append, List.filterMap_cons, List.filter_cons,
      relay_filterMap_nil, relay_filter_nil]

theorem format_check_kind_cases (data : Nat → Nat) :
    (format_check data).1 = ContainerKind.Jp2Box ∨
      (format_check data).1 = ContainerKind.RawCodestream ∨
      (format_check data).1 = ContainerKind.Unrecognized := by
  cases (format_check data).1 <;> simp

theorem stored_messages_format_check (data : Nat → Nat) :
    stored_messages (format_check data).2 = [] := by
  unfold format_check codestream_or_unknown stored_messages load32
  split_ifs <;> simp [List.filterMap_cons]

theorem pixel_sink_calls_format_check (data : Nat → Nat) :
    pixel_sink_calls (format_check data).2 = [] := by
  unfold format_check codestream_or_unknown pixel_sink_calls load32
  split_ifs <;> simp [List.filter_cons]

theorem decode_steps_format_check (data : Nat → Nat) :
    decode_steps (format_check data).2 = [] := by
  unfold format_check codestream_or_unknown decode_steps load32
  split_ifs <;> simp [List.filterMap_cons]

theorem stored_messages_append (a b : List Event) :
    stored_messages (a ++ b) = stored_messages a ++ stored_messages b := by
  simp [stored_messages, List.filterMap_append]

theorem pixel_sink_calls_append (a b : List Event) :
    pixel_sink_calls (a ++ b) = pixel_sink_calls a ++ pixel_sink_calls b := by
  simp [pixel_sink_calls, List.filter_append]

theorem decode_steps_append (a b : List Event) :
    decode_steps (a ++ b) = decode_steps a ++ decode_steps b := by
  simp [decode_steps, List.filterMap_append]

theorem status_zero_iff (eng : Engine) (data : Nat → Nat) (n pn : Nat) (i sm : Int) :
    (jp2_decode eng data n pn i sm).status = 0 ↔
      (recognised data ∧ eng.setup_decoder = true ∧ eng.read_header.success = true ∧
        eng.decode = true ∧ eng.end_decompress = true) := by
  rw [jp2_decode_eq]
  rcases format_check_kind_cases data with hk | hk | hk
  · have hr : recognised data := by simp [recognised, hk]
    simp only [hk, hr, true_and]
    exact session_status_zero_iff eng _ _ _
  · have hr : recognised data := by simp [recognised, hk]
    simp only [hk, hr, true_and]
    exact session_status_zero_iff eng _ _ _
  · have hr : ¬ recognised data := by simp [recognised, hk]
    simp [hk, hr]

/-- C5: `jp2_decode` returns 0 exactly when the format is recognised and the four engine
steps all succeed.  Otherwise it returns non-zero, the last message stored is the one of the
first failing step, the engine steps performed stop with the failing one, and the pixel sink
is never called. -/
theorem status_reports_first_failure (eng : Engine) (data : Nat → Nat) (data_size : Nat)
    (pdf_numcomps : Nat) (pdf_is_indexed_colormap pdf_smaks_in_data : Int) :
    ((jp2_decode eng data data_size pdf_numcomps pdf_is_indexed_colormap
        pdf_smaks_in_data).status = 0 ↔
      (recognised data ∧ eng.setup_decoder = true ∧ eng.read_header.success = true ∧
        eng.decode = true ∧ eng.end_decompress = true)) ∧
    ((jp2_decode eng data data_size pdf_numcomps pdf_is_indexed_colormap
        pdf_smaks_in_data).status = 0 ↔ first_failure eng data = none) ∧
    ((jp2_decode eng data data_size pdf_numcomps pdf_is_indexed_colormap
        pdf_smaks_in_data).status ≠ 0 →
      (stored_messages (jp2_decode eng data data_size pdf_numcomps pdf_is_indexed_colormap
        pdf_smaks_in_data).trace).getLast? = first_failure eng data ∧
      pixel_sink_calls (jp2_decode eng data data_size pdf_numcomps pdf_is_indexed_colormap
        pdf_smaks_in_data).trace = [] ∧
      decode_steps (jp2_decode eng data data_size pdf_numcomps pdf_is_indexed_colormap
        pdf_smaks_in_data).trace
        = if recognised data then through_first_failure (engine_steps eng) else []) := by
  have hm := stored_messages_format_check data
  have hp := pixel_sink_calls_format_check data
  have hd := decode_steps_format_check data
  rw [jp2_decode_eq]
  rcases format_check_kind_cases data with hk | hk | hk
  · have hr : recognised data := by simp [recognised, hk]
    have h0 := session_status_zero_iff eng OPJ_CODEC_FORMAT.OPJ_CODEC_JP2 data_size
      pdf_is_indexed_colormap
    simp only [hk, stored_messages_append, pixel_sink_calls_append, decode_steps_append,
      hm, hp, hd, List.nil_append, first_failure, hr, not_true_eq_false, if_false, if_true,
      true_and]
    refine ⟨h0, ?_, ?_⟩
    · rw [h0]
      rcases eng.setup_decoder <;> rcases eng.read_header.success <;>
        rcases eng.decode <;> rcases eng.end_decompress <;> simp
    · intro h
      exact session_failure_report eng _ _ _ h
  · have hr : recognised data := by simp [recognised, hk]
    have h0 := session_status_zero_iff eng OPJ_CODEC_FORMAT.OPJ_CODEC_J2K data_size
      pdf_is_indexed_colormap
    simp only [hk, stored_messages_append, pixel_sink_calls_append, decode_steps_append,
      hm, hp, hd, List.nil_append, first_failure, hr, not_true_eq_false, if_false, if_true,
      true_and]
    refine ⟨h0, ?_, ?_⟩
    · rw [h0]
      rcases eng.setup_decoder <;> rcases eng.read_header.success <;>
        rcases eng.decode <;> rcases eng.end_decompress <;> simp
    · intro h
      exact session_failure_report eng _ _ _ h
  · have hr : ¬ recognised data := by simp [recognised, hk]
    simp only [hk, stored_messages_append, pixel_sink_calls_append, decode_steps_append,
      hm, hp, hd, List.nil_append, first_failure, hr, not_false_eq_true, if_true, if_false]
    simp [stored_messages, pixel_sink_calls, decode_steps, List.filterMap_cons,
      List.filter_cons]

theorem relay_flatMap_nil {α : Type} (f : Event → List α)
    (h1 : ∀ m, f (Event.storeErrorMessage m) = [])
    (h2 : ∀ m, f (Event.jsPrintWarning m) = []) (ms : List Message) :
    (relay ms).flatMap f = [] := by
  induction ms with
  | nil => rfl
  | cons m ms ih =>
    cases m <;>
      simp [relay, deliver, quiet_callback, warning_callback, error_callback, h1, h2] <;>
      simpa using ih

theorem free_icc_flatMap_nil {α : Type} (f : Event → List α)
    (h : ∀ b, f (Event.free b) = []) (image : opj_image_t) :
    (free_icc_profile image).flatMap f = [] := by
  unfold free_icc_profile
  split <;> simp [h]

theorem copy_pixels_flatMap_nil {α : Type} (f : Event → List α)
    (h1 : ∀ a p n, f (Event.copy_pixels_1 a p n) = [])
    (h3 : ∀ a b c n, f (Event.copy_pixels_3 a b c n) = [])
    (h4 : ∀ a b c d n, f (Event.copy_pixels_4 a b c d n) = []) (image : opj_image_t) :
    (copy_pixels image).flatMap f = [] := by
  unfold copy_pixels
  split <;> simp [h1, h3, h4]

theorem acquired_format_check (data : Nat → Nat) : acquired (format_check data).2 = [] := by
  unfold format_check codestream_or_unknown acquired load32
  split_ifs <;> simp

theorem released_format_check (data : Nat → Nat) : released (format_check data).2 = [] := by
  unfold format_check codestream_or_unknown released load32
  split_ifs <;> simp

theorem destroy_calls_format_check (data : Nat → Nat) :
    destroy_calls (format_check data).2 = [] := by
  unfold format_check codestream_or_unknown destroy_calls load32
  split_ifs <;> simp [List.filterMap_cons]

theorem acquired_append (a b : List Event) : acquired (a ++ b) = acquired a ++ acquired b := by
  simp [acquired, List.flatMap_append]

theorem released_append (a b : List Event) : released (a ++ b) = released a ++ released b := by
  simp [released, List.flatMap_append]

theorem destroy_calls_append (a b : List Event) :
    destroy_calls (a ++ b) = destroy_calls a ++ destroy_calls b := by
  simp [destroy_calls, List.filterMap_append]

theorem of_kind_append (k : Resource) (a b : List (Resource × Nat)) :
    of_kind k (a ++ b) = of_kind k a ++ of_kind k b := by
  simp [of_kind, List.filterMap_append]

theorem of_kind_handle (k j : Resource) (p : Option Nat) :
    of_kind k (handle j p) = if j = k then p.toList else [] := by
  cases p <;> simp [of_kind, handle, List.filterMap_cons]
  split_ifs <;> simp

theorem toList_length_le_one (p : Option Nat) : p.toList.length ≤ 1 := by
  cases p <;> simp

theorem session_acquired (eng : Engine) (f : OPJ_CODEC_FORMAT) (n : Nat) (i : Int) :
    acquired (decode_session eng f n i).trace =
      handle Resource.codec (eng.create_decompress f)
        ++ handle Resource.stream eng.create_buffer_stream
        ++ (if eng.setup_decoder = false then []
            else handle Resource.image eng.read_header.image) := by
  unfold decode_session
  simp only []
  split_ifs <;>
    simp [acquired, List.flatMap_append, relay_flatMap_nil, free_icc_flatMap_nil, copy_pixels_flatMap_nil]

theorem session_released (eng : Engine) (f : OPJ_CODEC_FORMAT) (n : Nat) (i : Int) :
    released (decode_session eng f n i).trace =
      if eng.setup_decoder = false then
        handle Resource.stream eng.create_buffer_stream
          ++ handle Resource.codec (eng.create_decompress f)
      else if eng.read_header.success = true ∧
          (eng.decode = false ∨ eng.end_decompress = false) then
        handle Resource.codec (eng.create_decompress f)
          ++ handle Resource.stream eng.create_buffer_stream
          ++ handle Resource.image eng.read_header.image
      else
        handle Resource.stream eng.create_buffer_stream
          ++ handle Resource.codec (eng.create_decompress f)
          ++ handle Resource.image eng.read_header.image := by
  unfold decode_session
  simp only []
  split_ifs <;>
    simp_all [released, List.flatMap_append, relay_flatMap_nil, free_icc_flatMap_nil,
      copy_pixels_flatMap_nil]

theorem session_destroy_calls (eng : Engine) (f : OPJ_CODEC_FORMAT) (n : Nat) (i : Int) :
    destroy_calls (decode_session eng f n i).trace =
      if eng.setup_decoder = false then [Resource.stream, Resource.codec]
      else if eng.read_header.success = true ∧
          (eng.decode = false ∨ eng.end_decompress = false) then
        [Resource.codec, Resource.stream, Resource.image]
      else [Resource.stream, Resource.codec, Resource.image] := by
  unfold decode_session
  simp only []
  split_ifs <;>
    simp_all [destroy_calls, List.filterMap_append, List.filterMap_cons, relay_filterMap_nil,
      free_icc_filterMap_nil, copy_pixels_filterMap_nil]

theorem session_handles (eng : Engine) (f : OPJ_CODEC_FORMAT) (n : Nat) (i : Int)
    (k : Resource) :
    of_kind k (released (decode_session eng f n i).trace)
      = of_kind k (acquired (decode_session eng f n i).trace) ∧
    (of_kind k (acquired (decode_session eng f n i).trace)).length ≤ 1 ∧
    (destroy_calls (decode_session eng f n i).trace).count k ≤ 1 := by
  rw [session_acquired, session_released, session_destroy_calls]
  have hc := toList_length_le_one (eng.create_decompress f)
  have hs := toList_length_le_one eng.create_buffer_stream
  have hi := toList_length_le_one eng.read_header.image
  cases k <;> split_ifs <;>
    simp_all [of_kind_append, of_kind_handle, List.count_cons]

/-- C6: on every exit path and for every answer of the engine, the handles of each kind
(codec, stream, image) that `jp2_decode` hands to the matching destroy function are exactly
the handles it acquired, there is at most one of each, and each destroy function is called
at most once: every acquired handle is released exactly once and nothing else is released. -/
theorem handles_released_exactly_once (eng : Engine) (data : Nat → Nat) (data_size : Nat)
    (pdf_numcomps : Nat) (pdf_is_indexed_colormap pdf_smaks_in_data : Int) (k : Resource) :
    of_kind k (released (jp2_decode eng data data_size pdf_numcomps pdf_is_indexed_colormap
        pdf_smaks_in_data).trace)
      = of_kind k (acquired (jp2_decode eng data data_size pdf_numcomps
          pdf_is_indexed_colormap pdf_smaks_in_data).trace) ∧
    (of_kind k (acquired (jp2_decode eng data data_size pdf_numcomps pdf_is_indexed_colormap
        pdf_smaks_in_data).trace)).length ≤ 1 ∧
    (destroy_calls (jp2_decode eng data data_size pdf_numcomps pdf_is_indexed_colormap
        pdf_smaks_in_data).trace).count k ≤ 1 := by
  have ha := acquired_format_check data
  have hr := released_format_check data
  have hd := destroy_calls_format_check data
  rw [jp2_decode_eq]
  rcases format_check_kind_cases data with hk | hk | hk
  · simp only [hk, acquired_append, released_append, destroy_calls_append, ha, hr, hd,
      List.nil_append]
    exact session_handles eng _ _ _ k
  · simp only [hk, acquired_append, released_append, destroy_calls_append, ha, hr, hd,
      List.nil_append]
    exact session_handles eng _ _ _ k
  · simp only [hk, acquired_append, released_append, destroy_calls_append, ha, hr, hd,
      List.nil_append]
    simp [of_kind, released, acquired, destroy_calls, List.filterMap_cons]

theorem session_success_trace (eng : Engine) (f : OPJ_CODEC_FORMAT) (n : Nat) (i : Int)
    (hs : eng.setup_decoder = true) (hh : eng.read_header.success = true)
    (hd : eng.decode = true) (he : eng.end_decompress = true) :
    (decode_session eng f n i).status = 0 ∧
    ∃ before, (decode_session eng f n i).trace
        = before ++ copy_pixels eng.decoded_image
          ++ [Event.opj_image_destroy eng.read_header.image] ∧
      pixel_sink_calls before = [] ∧ Resource.image ∉ destroy_calls before := by
  unfold decode_session
  simp only [hs, hh, hd, he, Bool.true_eq_false, if_false, true_and]
  refine ⟨_, rfl, ?_, ?_⟩
  · simp [pixel_sink_calls, List.filter_append, List.filter_cons, relay_filter_nil,
      free_icc_profile]
    split <;> simp
  · simp [destroy_calls, List.filterMap_append, List.filterMap_cons, relay_filterMap_nil,
      free_icc_filterMap_nil]

theorem pixel_sink_calls_copy_pixels (image : opj_image_t) :
    pixel_sink_calls (copy_pixels image) = copy_pixels image := by
  unfold copy_pixels pixel_sink_calls
  split <;> simp [List.filter_cons]

/-- C7: after a successful decode `jp2_decode` returns 0 and the pixel-sink calls depend on
the component count alone: one `copy_pixels_1` with component 0, its precision and
`nb_pixels` for 1 component; one `copy_pixels_3` with components 0, 1, 2 for 3; one
`copy_pixels_4` with components 0, 1, 2, 3 for 4; no call for any other count.  The sink
calls come after everything else and right before the only `opj_image_destroy`. -/
theorem sink_call_by_component_count (eng : Engine) (data : Nat → Nat) (data_size : Nat)
    (pdf_numcomps : Nat) (pdf_is_indexed_colormap pdf_smaks_in_data : Int)
    (hr : recognised data)
    (hs : eng.setup_decoder = true) (hh : eng.read_header.success = true)
    (hd : eng.decode = true) (he : eng.end_decompress = true) :
    (jp2_decode eng data data_size pdf_numcomps pdf_is_indexed_colormap
      pdf_smaks_in_data).status = 0 ∧
    (eng.decoded_image.numcomps = 1 →
      pixel_sink_calls (jp2_decode eng data data_size pdf_numcomps pdf_is_indexed_colormap
        pdf_smaks_in_data).trace
        = [Event.copy_pixels_1 (eng.decoded_image.comps 0).data
            (eng.decoded_image.comps 0).prec (nb_pixels eng.decoded_image)]) ∧
    (eng.decoded_image.numcomps = 3 →
      pixel_sink_calls (jp2_decode eng data data_size pdf_numcomps pdf_is_indexed_colormap
        pdf_smaks_in_data).trace
        = [Event.copy_pixels_3 (eng.decoded_image.comps 0).data
            (eng.decoded_image.comps 1).data (eng.decoded_image.comps 2).data
            (nb_pixels eng.decoded_image)]) ∧
    (eng.decoded_image.numcomps = 4 →
      pixel_sink_calls (jp2_decode eng data data_size pdf_numcomps pdf_is_indexed_colormap
        pdf_smaks_in_data).trace
        = [Event.copy_pixels_4 (eng.decoded_image.comps 0).data
            (eng.decoded_image.comps 1).data (eng.decoded_image.comps 2).data
            (eng.decoded_image.comps 3).data (nb_pixels eng.decoded_image)]) ∧
    (eng.decoded_image.numcomps ≠ 1 ∧ eng.decoded_image.numcomps ≠ 3 ∧
        eng.decoded_image.numcomps ≠ 4 →
      pixel_sink_calls (jp2_decode eng data data_size pdf_numcomps pdf_is_indexed_colormap
        pdf_smaks_in_data).trace = []) ∧
    (pixel_sink_calls (jp2_decode eng data data_size pdf_numcomps pdf_is_indexed_colormap
        pdf_smaks_in_data).trace).length ≤ 1 ∧
    ∃ before, (jp2_decode eng data data_size pdf_numcomps pdf_is_indexed_colormap
        pdf_smaks_in_data).trace
        = before ++ pixel_sink_calls (jp2_decode eng data data_size pdf_numcomps
            pdf_is_indexed_colormap pdf_smaks_in_data).trace
          ++ [Event.opj_image_destroy eng.read_header.image] ∧
      pixel_sink_calls before = [] ∧ Resource.image ∉ destroy_calls before := by
  have key : ∀ f, (format_check data).1 ≠ ContainerKind.Unrecognized →
      ({ status := (decode_session eng f data_size pdf_is_indexed_colormap).status,
         trace := (format_check data).2
           ++ (decode_session eng f data_size pdf_is_indexed_colormap).trace } : Outcome).status
        = 0 ∧
      pixel_sink_calls ((format_check data).2
           ++ (decode_session eng f data_size pdf_is_indexed_colormap).trace)
        = copy_pixels eng.decoded_image ∧
      ∃ before, (format_check data).2
           ++ (decode_session eng f data_size pdf_is_indexed_colormap).trace
          = before ++ copy_pixels eng.decoded_image
            ++ [Event.opj_image_destroy eng.read_header.image] ∧
        pixel_sink_calls before = [] ∧ Resource.image ∉ destroy_calls before := by
    intro f _
    obtain ⟨h0, before, ht, hb1, hb2⟩ :=
      session_success_trace eng f data_size pdf_is_indexed_colormap hs hh hd he
    refine ⟨h0, ?_, (format_check data).2 ++ before, ?_, ?_, ?_⟩
    · rw [ht]
      simp [pixel_sink_calls_append, pixel_sink_calls_format_check, hb1,
        pixel_sink_calls_copy_pixels]
      simp [pixel_sink_calls, List.filter_cons]
    · rw [ht]
      simp [List.append_assoc]
    · simp [pixel_sink_calls_append, pixel_sink_calls_format_check, hb1]
    · simp [destroy_calls_append, destroy_calls_format_check, hb2]
  have main : (jp2_decode eng data data_size pdf_numcomps pdf_is_indexed_colormap
        pdf_smaks_in_data).status = 0 ∧
      pixel_sink_calls (jp2_decode eng data data_size pdf_numcomps pdf_is_indexed_colormap
        pdf_smaks_in_data).trace = copy_pixels eng.decoded_image ∧
      ∃ before, (jp2_decode eng data data_size pdf_numcomps pdf_is_indexed_colormap
        pdf_smaks_in_data).trace
          = before ++ copy_pixels eng.decoded_image
            ++ [Event.opj_image_destroy eng.read_header.image] ∧
        pixel_sink_calls before = [] ∧ Resource.image ∉ destroy_calls before := by
    rw [jp2_decode_eq]
    rcases format_check_kind_cases data with hk | hk | hk
    · simp only [hk]
      exact key _ (by simp [hk])
    · simp only [hk]
      exact key _ (by simp [hk])
    · exact absurd hk hr
  obtain ⟨h0, hp, before, ht, hb1, hb2⟩ := main
  refine ⟨h0, ?_, ?_, ?_, ?_, ?_, before, ?_, hb1, hb2⟩
  · intro h
    rw [hp]
    simp [copy_pixels, h]
  · intro h
    rw [hp]
    simp [copy_pixels, h]
  · intro h
    rw [hp]
    simp [copy_pixels, h]
  · intro h
    rw [hp]
    unfold copy_pixels
    split <;> simp_all
  · rw [hp]
    unfold copy_pixels
    split <;> simp
  · rw [hp]
    exact ht

/-- C7 at a three-component image of 2 x 3 pixels. -/
theorem sink_call_by_component_count_witness :
    recognised (bytes [0xFF, 0x4F, 0xFF, 0x51]) ∧
    (jp2_decode (sample_engine (sample_image 3)) (bytes [0xFF, 0x4F, 0xFF, 0x51])
      4 3 0 0).status = 0 ∧
    pixel_sink_calls (jp2_decode (sample_engine (sample_image 3))
      (bytes [0xFF, 0x4F, 0xFF, 0x51]) 4 3 0 0).trace
      = [Event.copy_pixels_3 [0, 0, 0, 0, 0, 0] [1, 1, 1, 1, 1, 1] [2, 2, 2, 2, 2, 2] 6] :=
  ⟨by decide,
   (sink_call_by_component_count (sample_engine (sample_image 3))
      (bytes [0xFF, 0x4F, 0xFF, 0x51]) 4 3 0 0 (by decide) rfl rfl rfl rfl).1,
   (sink_call_by_component_count (sample_engine (sample_image 3))
      (bytes [0xFF, 0x4F, 0xFF, 0x51]) 4 3 0 0 (by decide) rfl rfl rfl rfl).2.2.1 rfl⟩

theorem setup_parameters_format_check (data : Nat → Nat) :
    setup_parameters (format_check data).2 = [] := by
  unfold format_check codestream_or_unknown setup_parameters load32
  split_ifs <;> simp [List.filterMap_cons]

theorem setup_parameters_append (a b : List Event) :
    setup_parameters (a ++ b) = setup_parameters a ++ setup_parameters b := by
  simp [setup_parameters, List.filterMap_append]

theorem session_setup_parameters (eng : Engine) (f : OPJ_CODEC_FORMAT) (n : Nat) (i : Int) :
    setup_parameters (decode_session eng f n i).trace = [decode_parameters eng i] := by
  unfold decode_session
  simp only []
  split_ifs <;>
    simp [setup_parameters, List.filterMap_append, List.filterMap_cons, relay_filterMap_nil,
      free_icc_filterMap_nil, copy_pixels_filterMap_nil]

theorem setup_parameters_jp2_decode (eng : Engine) (data : Nat → Nat) (n pn : Nat)
    (i sm : Int) (hr : recognised data) :
    setup_parameters (jp2_decode eng data n pn i sm).trace = [decode_parameters eng i] := by
  rw [jp2_decode_eq]
  rcases format_check_kind_cases data with hk | hk | hk
  · simp only [hk, setup_parameters_append, setup_parameters_format_check, List.nil_append]
    exact session_setup_parameters eng _ _ _
  · simp only [hk, setup_parameters_append, setup_parameters_format_check, List.nil_append]
    exact session_setup_parameters eng _ _ _
  · exact absurd hk hr

/-- C8: for a recognised input `opj_setup_decoder` is called once, with a parameter record
that is the engine defaults when `pdf_is_indexed_colormap` is zero and otherwise the
defaults with `OPJ_DPARAMETERS_IGNORE_PCLR_CMAP_CDEF_FLAG` OR-ed into `flags`: the other
fields and every flag bit outside that flag are those of the defaults, and the record is
the same for every value of `pdf_numcomps` and `pdf_smaks_in_data`. -/
theorem setup_parameters_are_defaults_with_flag (eng : Engine) (data : Nat → Nat)
    (data_size : Nat) (pdf_numcomps : Nat) (pdf_is_indexed_colormap pdf_smaks_in_data : Int)
    (hr : recognised data) :
    ∃ p : opj_dparameters_t,
      setup_parameters (jp2_decode eng data data_size pdf_numcomps pdf_is_indexed_colormap
        pdf_smaks_in_data).trace = [p] ∧
      (pdf_is_indexed_colormap = 0 → p = eng.default_parameters) ∧
      (pdf_is_indexed_colormap ≠ 0 →
        p.flags = eng.default_parameters.flags |||
          eng.OPJ_DPARAMETERS_IGNORE_PCLR_CMAP_CDEF_FLAG) ∧
      p.other_fields = eng.default_parameters.other_fields ∧
      (∀ b, eng.OPJ_DPARAMETERS_IGNORE_PCLR_CMAP_CDEF_FLAG.testBit b = false →
        p.flags.testBit b = eng.default_parameters.flags.testBit b) ∧
      (∀ (numcomps : Nat) (smaks : Int),
        setup_parameters (jp2_decode eng data data_size numcomps pdf_is_indexed_colormap
          smaks).trace = [p]) := by
  refine ⟨decode_parameters eng pdf_is_indexed_colormap,
    setup_parameters_jp2_decode eng data _ _ _ _ hr, ?_, ?_, ?_, ?_, ?_⟩
  · intro h
    simp [decode_parameters, h]
  · intro h
    simp [decode_parameters, h]
  · unfold decode_parameters
    split_ifs <;> rfl
  · intro b hb
    unfold decode_parameters
    split_ifs
    · simp [Nat.testBit_lor, hb]
    · rfl
  · intro numcomps smaks
    exact setup_parameters_jp2_decode eng data _ _ _ _ hr

/-- C8 at a bare JP2 magic word with the indexed-colormap hint set: defaults with flags 2
become flags 3. -/
theorem setup_parameters_are_defaults_with_flag_witness :
    recognised (bytes [0x0D, 0x0A, 0x87, 0x0A]) ∧
    ∃ p : opj_dparameters_t,
      setup_parameters (jp2_decode (sample_engine (sample_image 3))
        (bytes [0x0D, 0x0A, 0x87, 0x0A]) 4 3 1 0).trace = [p] ∧
      p.flags = 3 ∧ p.other_fields = [0, 0, -1, -1] :=
  ⟨by decide,
   (setup_parameters_are_defaults_with_flag (sample_engine (sample_image 3))
      (bytes [0x0D, 0x0A, 0x87, 0x0A]) 4 3 1 0 (by decide)).elim
     fun p hp => ⟨p, hp.1, hp.2.2.1 (by decide), hp.2.2.2.1⟩⟩

theorem sink_pixel_counts_format_check (data : Nat → Nat) :
    sink_pixel_counts (format_check data).2 = [] := by
  unfold format_check codestream_or_unknown sink_pixel_counts load32
  split_ifs <;> simp [List.filterMap_cons]

theorem sink_pixel_counts_append (a b : List Event) :
    sink_pixel_counts (a ++ b) = sink_pixel_counts a ++ sink_pixel_counts b := by
  simp [sink_pixel_counts, List.filterMap_append]

theorem session_sink_pixel_counts (eng : Engine) (f : OPJ_CODEC_FORMAT) (n : Nat) (i : Int)
    (hs : eng.setup_decoder = true) (hh : eng.read_header.success = true)
    (hd : eng.decode = true) (he : eng.end_decompress = true) :
    sink_pixel_counts (decode_session eng f n i).trace
      = sink_pixel_counts (copy_pixels eng.decoded_image) := by
  unfold decode_session
  simp only [hs, hh, hd, he, Bool.true_eq_false, if_false]
  simp [sink_pixel_counts, List.filterMap_append, List.filterMap_cons, relay_filterMap_nil,
    free_icc_filterMap_nil]

/-- C9 (as amended): after a successful decode `jp2_decode` returns 0 and every pixel count
handed to the pixel sink is `x1 * y1` reduced modulo `2 ^ 32`, which is the exact product
whenever the product is below `2 ^ 32`; with 1, 3 or 4 components exactly one such count is
handed over.  There is no overflow check. -/
theorem pixel_count_is_product_mod_word (eng : Engine) (data : Nat → Nat) (data_size : Nat)
    (pdf_numcomps : Nat) (pdf_is_indexed_colormap pdf_smaks_in_data : Int)
    (hr : recognised data)
    (hs : eng.setup_decoder = true) (hh : eng.read_header.success = true)
    (hd : eng.decode = true) (he : eng.end_decompress = true) :
    (jp2_decode eng data data_size pdf_numcomps pdf_is_indexed_colormap
      pdf_smaks_in_data).status = 0 ∧
    (eng.decoded_image.numcomps = 1 ∨ eng.decoded_image.numcomps = 3 ∨
        eng.decoded_image.numcomps = 4 →
      sink_pixel_counts (jp2_decode eng data data_size pdf_numcomps pdf_is_indexed_colormap
        pdf_smaks_in_data).trace
        = [(eng.decoded_image.x1 * eng.decoded_image.y1) % 2 ^ 32]) ∧
    (∀ c ∈ sink_pixel_counts (jp2_decode eng data data_size pdf_numcomps
        pdf_is_indexed_colormap pdf_smaks_in_data).trace,
      c = (eng.decoded_image.x1 * eng.decoded_image.y1) % 2 ^ 32 ∧
      (eng.decoded_image.x1 * eng.decoded_image.y1 < 2 ^ 32 →
        c = eng.decoded_image.x1 * eng.decoded_image.y1)) := by
  have h0 : (jp2_decode eng data data_size pdf_numcomps pdf_is_indexed_colormap
      pdf_smaks_in_data).status = 0 :=
    (status_zero_iff eng data data_size pdf_numcomps pdf_is_indexed_colormap
      pdf_smaks_in_data).2 ⟨hr, hs, hh, hd, he⟩
  have hc : sink_pixel_counts (jp2_decode eng data data_size pdf_numcomps
      pdf_is_indexed_colormap pdf_smaks_in_data).trace
        = sink_pixel_counts (copy_pixels eng.decoded_image) := by
    rw [jp2_decode_eq]
    rcases format_check_kind_cases data with hk | hk | hk
    · simp only [hk, sink_pixel_counts_append, sink_pixel_counts_format_check,
        List.nil_append]
      exact session_sink_pixel_counts eng _ _ _ hs hh hd he
    · simp only [hk, sink_pixel_counts_append, sink_pixel_counts_format_check,
        List.nil_append]
      exact session_sink_pixel_counts eng _ _ _ hs hh hd he
    · exact absurd hk hr
  refine ⟨h0, ?_, ?_⟩
  · intro h
    rw [hc]
    rcases h with h | h | h <;>
      simp [copy_pixels, h, sink_pixel_counts, List.filterMap_cons, nb_pixels]
  · intro c hmem
    rw [hc] at hmem
    have hv : c = (eng.decoded_image.x1 * eng.decoded_image.y1) % 2 ^ 32 := by
      unfold copy_pixels at hmem
      split at hmem <;>
        simp [sink_pixel_counts, List.filterMap_cons, nb_pixels] at hmem <;> exact hmem
    exact ⟨hv, fun hlt => by rw [hv, Nat.mod_eq_of_lt hlt]⟩

/-- The amended C9 at a four-component image of 2 x 3 pixels. -/
theorem pixel_count_is_product_mod_word_witness :
    recognised (bytes [0xFF, 0x4F, 0xFF, 0x51]) ∧
    (jp2_decode (sample_engine (sample_image 4)) (bytes [0xFF, 0x4F, 0xFF, 0x51])
      4 4 0 0).status = 0 ∧
    sink_pixel_counts (jp2_decode (sample_engine (sample_image 4))
      (bytes [0xFF, 0x4F, 0xFF, 0x51]) 4 4 0 0).trace = [6] :=
  ⟨by decide,
   (pixel_count_is_product_mod_word (sample_engine (sample_image 4))
      (bytes [0xFF, 0x4F, 0xFF, 0x51]) 4 4 0 0 (by decide) rfl rfl rfl rfl).1,
   (pixel_count_is_product_mod_word (sample_engine (sample_image 4))
      (bytes [0xFF, 0x4F, 0xFF, 0x51]) 4 4 0 0 (by decide) rfl rfl rfl rfl).2.1
      (Or.inr (Or.inr rfl))⟩

/-- C9 as stated fails: for an image of 65536 x 65536 pixels the product is 2 ^ 32, and
`jp2_decode` returns 0 after handing the pixel count 0 to `copy_pixels_1`, with no error
message stored. -/
theorem pixel_count_overflow_counterexample :
    (jp2_decode (sample_engine huge_image) (bytes [0xFF, 0x4F, 0xFF, 0x51]) 4 1 0 0).status = 0 ∧
    huge_image.x1 * huge_image.y1 = 4294967296 ∧
    ¬ (huge_image.x1 * huge_image.y1 < 2 ^ 32) ∧
    pixel_sink_calls (jp2_decode (sample_engine huge_image) (bytes [0xFF, 0x4F, 0xFF, 0x51])
      4 1 0 0).trace = [Event.copy_pixels_1 [] 8 0] ∧
    stored_messages (jp2_decode (sample_engine huge_image) (bytes [0xFF, 0x4F, 0xFF, 0x51])
      4 1 0 0).trace = [] := by
  decide

theorem destroy_calls_jp2_decode (eng : Engine) (data : Nat → Nat) (n pn : Nat) (i sm : Int) :
    destroy_calls (jp2_decode eng data n pn i sm).trace =
      if ¬ recognised data then []
      else if eng.setup_decoder = false then [Resource.stream, Resource.codec]
      else if eng.read_header.success = true ∧
          (eng.decode = false ∨ eng.end_decompress = false) then
        [Resource.codec, Resource.stream, Resource.image]
      else [Resource.stream, Resource.codec, Resource.image] := by
  rw [jp2_decode_eq]
  rcases format_check_kind_cases data with hk | hk | hk
  · have hr : recognised data := by simp [recognised, hk]
    simp only [hk, destroy_calls_append, destroy_calls_format_check, List.nil_append, hr,
      not_true_eq_false, if_false]
    exact session_destroy_calls eng _ _ _
  · have hr : recognised data := by simp [recognised, hk]
    simp only [hk, destroy_calls_append, destroy_calls_format_check, List.nil_append, hr,
      not_true_eq_false, if_false]
    exact session_destroy_calls eng _ _ _
  · have hr : ¬ recognised data := by simp [recognised, hk]
    simp only [hk, destroy_calls_append, destroy_calls_format_check, List.nil_append, hr,
      not_false_eq_true, if_true]
    simp [destroy_calls, List.filterMap_cons]

/-- C10: on the decode-failure path the code departs from the claimed order.  With a
codestream whose header is read and whose `opj_decode` fails, `jp2_decode` returns 1 after
calling `opj_destroy_codec` first, `opj_stream_destroy` second and `opj_image_destroy`
last: the codec is destroyed before the stream. -/
theorem decode_failure_destroys_codec_before_stream :
    (jp2_decode decode_failing_engine (bytes [0xFF, 0x4F, 0xFF, 0x51]) 4096 3 0 0).status = 1 ∧
    stored_messages (jp2_decode decode_failing_engine (bytes [0xFF, 0x4F, 0xFF, 0x51])
      4096 3 0 0).trace = ["tile is corrupt", "Failed to decode the image"] ∧
    destroy_calls (jp2_decode decode_failing_engine (bytes [0xFF, 0x4F, 0xFF, 0x51])
      4096 3 0 0).trace = [Resource.codec, Resource.stream, Resource.image] ∧
    released (jp2_decode decode_failing_engine (bytes [0xFF, 0x4F, 0xFF, 0x51])
      4096 3 0 0).trace
      = [(Resource.codec, 100), (Resource.stream, 200), (Resource.image, 300)] := by
  decide
